import Mathlib

/- A verification development for the session lifecycle and anti-detection
behavioral engine of the InstagramScraper repository.  The Python source
(src/instagram_client.py, src/session_manager.py, src/human_behavior.py,
src/config.py) is shallowly embedded below: remote calls, the random
generator and the clock become explicit oracle parameters, exceptions
become an error type carried in `Except` or `RunResult`, and every
`time.sleep` call site becomes an explicit event in a trace. -/

namespace InstagramScraper

/-- Exception classes that can cross the boundaries modelled here, as named
in the Python source (instagrapi exception classes plus ValueError and a
catch-all for any other exception). -/
inductive PyError
  | rateLimitError
  | pleaseWaitFewMinutes
  | challengeRequired
  | loginRequired
  | clientError
  | valueError
  | fileNotFoundError
  | otherError
  deriving DecidableEq, Repr

/-- In the instagrapi hierarchy RateLimitError, PleaseWaitFewMinutes,
ChallengeRequired and LoginRequired are all subclasses of ClientError, so an
`except ClientError` clause catches them all. -/
def PyError.isClientError : PyError → Bool
  | .rateLimitError => true
  | .pleaseWaitFewMinutes => true
  | .challengeRequired => true
  | .loginRequired => true
  | .clientError => true
  | .valueError => false
  | .fileNotFoundError => false
  | .otherError => false

/-- The failure taxonomy of the specification (section 7). -/
inductive FailureKind
  | RateLimited
  | ChallengeRequired
  | ClientError
  | UnknownError
  | MissingCredentials
  deriving DecidableEq, Repr

/-- Classification of a raised exception under the taxonomy of the
specification: RateLimitError and PleaseWaitFewMinutes are the rate-limit
classified failures, ChallengeRequired is the challenge failure,
generic client errors (including LoginRequired) are ClientError,
ValueError from credential validation is MissingCredentials, and anything
else is unclassified. -/
def classify : PyError → FailureKind
  | .rateLimitError => .RateLimited
  | .pleaseWaitFewMinutes => .RateLimited
  | .challengeRequired => .ChallengeRequired
  | .loginRequired => .ClientError
  | .clientError => .ClientError
  | .valueError => .MissingCredentials
  | .fileNotFoundError => .UnknownError
  | .otherError => .UnknownError

/-- Default configuration values from src/config.py (the defaults taken
when no environment override is present). -/
def Config.MIN_DELAY : ℚ := 1

/-- Default MAX_DELAY from src/config.py. -/
def Config.MAX_DELAY : ℚ := 3

/-- MAX_RETRIES from src/config.py. -/
def Config.MAX_RETRIES : ℕ := 3

/-- RETRY_DELAY from src/config.py. -/
def Config.RETRY_DELAY : ℚ := 5

/-- Result of one invocation of the wrapped operation: it either returns a
value or raises an exception. -/
inductive Outcome (α : Type)
  | ok (a : α)
  | raise (e : PyError)

/-- Observable events of a guarded call: an invocation of the wrapped
operation, the pacing sleep of the rate_limit decorator, or a backoff
sleep of the retry_on_error decorator.  Durations are in seconds. -/
inductive Event
  | invoke
  | pacingSleep (d : ℚ)
  | backoffSleep (d : ℚ)
  deriving DecidableEq, Repr

/-- Result of a whole guarded call: a returned value, a propagated
exception, or the `return None` fallthrough after the loop. -/
inductive RunResult (α : Type)
  | ok (a : α)
  | raised (e : PyError)
  | fellThrough

/-- Python truthiness defaulting `x or d` for an optional integer argument
(`max_retries or config.MAX_RETRIES` in retry_on_error): both None and 0
are falsy and yield the default. -/
def pyOrNat (x : Option ℕ) (d : ℕ) : ℕ :=
  match x with
  | none => d
  | some 0 => d
  | some (n + 1) => n + 1

/-- Python truthiness defaulting `x or d` for an optional float argument
(`delay or config.RETRY_DELAY` in retry_on_error). -/
def pyOrRat (x : Option ℚ) (d : ℚ) : ℚ :=
  match x with
  | none => d
  | some q => if q = 0 then d else q

/-- The retry loop of retry_on_error in src/instagram_client.py.
`f i` is the outcome of the wrapped operation on attempt `i` (0-indexed),
`attempt` is the loop variable and `remaining` the number of loop
iterations left (`retries - attempt`).  The except clauses are modelled in
source order: the rate-limit pair first (exponential backoff if attempts
remain, re-raise otherwise), then ChallengeRequired (always re-raise),
then ClientError (flat backoff if attempts remain, re-raise otherwise),
then the catch-all (always re-raise).  Returns the trace of events and
the result. -/
def retryLoop (rd : ℚ) (retries : ℕ) (f : ℕ → Outcome α) (attempt : ℕ) :
    ℕ → List Event × RunResult α
  | 0 => ([], .fellThrough)
  | remaining + 1 =>
    match f attempt with
    | .ok a => ([.invoke], .ok a)
    | .raise e =>
      if e = .rateLimitError ∨ e = .pleaseWaitFewMinutes then
        if attempt < retries - 1 then
          let rest := retryLoop rd retries f (attempt + 1) remaining
          (.invoke :: .backoffSleep (rd * 2 ^ attempt) :: rest.1, rest.2)
        else ([.invoke], .raised e)
      else if e = .challengeRequired then ([.invoke], .raised e)
      else if e.isClientError then
        if attempt < retries - 1 then
          let rest := retryLoop rd retries f (attempt + 1) remaining
          (.invoke :: .backoffSleep rd :: rest.1, rest.2)
        else ([.invoke], .raised e)
      else ([.invoke], .raised e)

/-- The retry_on_error decorator from src/instagram_client.py applied to
an operation whose attempt outcomes are given by `f`.  The optional
arguments default through Python truthiness to the config values. -/
def retry_on_error (max_retries : Option ℕ) (delay : Option ℚ) (f : ℕ → Outcome α) :
    List Event × RunResult α :=
  let retries := pyOrNat max_retries Config.MAX_RETRIES
  let retry_delay := pyOrRat delay Config.RETRY_DELAY
  retryLoop retry_delay retries f 0 retries

/-- The rate_limit decorator from src/instagram_client.py: one pacing
sleep of duration `d` (drawn uniformly from [MIN_DELAY, MAX_DELAY] by the
caller of this model), then the wrapped call runs. -/
def rate_limit (d : ℚ) (call : List Event × RunResult α) : List Event × RunResult α :=
  (.pacingSleep d :: call.1, call.2)

/-- A client method such as get_hashtag_info as decorated in the source:
`@rate_limit` applied outside `@retry_on_error()` (with default
arguments). -/
def guardedCall (d : ℚ) (f : ℕ → Outcome α) : List Event × RunResult α :=
  rate_limit d (retry_on_error none none f)

/-- Recognizer for invocation events. -/
def Event.isInvoke : Event → Bool
  | .invoke => true
  | _ => false

/-- Recognizer for pacing-sleep events. -/
def Event.isPacing : Event → Bool
  | .pacingSleep _ => true
  | _ => false

/-- Number of invocations of the wrapped operation recorded in a trace. -/
def invokeCount (t : List Event) : ℕ := t.countP Event.isInvoke

/-- Number of pacing sleeps recorded in a trace. -/
def pacingCount (t : List Event) : ℕ := t.countP Event.isPacing

/-- The list of backoff sleep durations recorded in a trace, in order. -/
def backoffs : List Event → List ℚ
  | [] => []
  | .backoffSleep d :: t => d :: backoffs t
  | _ :: t => backoffs t

/- Session manager (src/session_manager.py).  The instagrapi client and
the filesystem are oracles: each remote call site of the source becomes a
field giving its outcome, the session file becomes an `Option String`
(its raw content when present), and parsing / serializing the settings
structure become explicit `parse` / `dump` parameters standing for
json.load and json.dump, with the settings type `σ` abstract. -/

/-- Outcomes of the calls SessionManager makes on the instagrapi client
and the filesystem.  writeOk models whether mkdir/open/json.dump in
_save_session completes without raising. -/
structure ClientOracle (σ : Type) where
  set_settings : σ → Except PyError Unit
  get_timeline_feed : Except PyError Unit
  loginCall : Except PyError Unit
  get_settings : Except PyError σ
  writeOk : Bool
  warmUpRun : Except PyError Unit
  logoutCall : Except PyError Unit

/-- SessionManager._load_session_file: open the session file and
json.load its content.  A missing file raises FileNotFoundError; content
that does not parse raises whatever `parse` reports. -/
def _load_session_file (parse : String → Except PyError σ) (file : Option String) :
    Except PyError σ :=
  match file with
  | none => .error .fileNotFoundError
  | some raw => parse raw

/-- SessionManager._try_load_session: returns False when the file does
not exist; otherwise loads and parses the file, installs the settings and
probes the session with get_timeline_feed, returning True on success; a
LoginRequired from the probe returns False, and any other exception in
the block also returns False.  The `Except` result type records that no
exception escapes. -/
def _try_load_session (parse : String → Except PyError σ) (o : ClientOracle σ)
    (file : Option String) : Except PyError Bool :=
  match file with
  | none => .ok false
  | some raw =>
    match parse raw with
    | .error _ => .ok false
    | .ok data =>
      match o.set_settings data with
      | .error _ => .ok false
      | .ok _ =>
        match o.get_timeline_feed with
        | .ok _ => .ok true
        | .error .loginRequired => .ok false
        | .error _ => .ok false

/-- SessionManager._save_session: get_settings then write the dumped
settings to the session file; any exception in the block is caught and
logged, leaving the stored file as it was.  Returns the new file
content. -/
def _save_session (dump : σ → String) (o : ClientOracle σ) (file : Option String) :
    Option String :=
  match o.get_settings with
  | .error _ => file
  | .ok s => if o.writeOk then some (dump s) else file

/-- SessionManager._warm_up_session: runs the HumanBehavior warm-up for a
random 30 to 90 second duration inside a try block that catches every
exception, so the call always returns normally. -/
def _warm_up_session (o : ClientOracle σ) : Except PyError Unit :=
  match o.warmUpRun with
  | .ok _ => .ok ()
  | .error _ => .ok ()

/-- The fresh-login path of SessionManager.login (the second try block):
validate credentials (ValueError when missing), sleep a random pre-login
delay, call client.login, persist the session via _save_session, warm up
when requested, and return the client (modelled as Unit); a
PleaseWaitFewMinutes and any other exception from the block are both
re-raised unchanged.  Returns the login result and the new session file
content. -/
def freshLogin (dump : σ → String) (credentialsPresent : Bool) (o : ClientOracle σ)
    (file : Option String) (warm_up : Bool) : Except PyError Unit × Option String :=
  if credentialsPresent then
    match o.loginCall with
    | .ok _ =>
      let file2 := _save_session dump o file
      let _ := if warm_up then _warm_up_session o else .ok ()
      (.ok (), file2)
    | .error e => (.error e, file)
  else (.error .valueError, file)

/-- SessionManager.login: try the saved session first; when
_try_load_session returns True, warm up if requested and return the
client with the stored file untouched; when it returns False, or when the
attempt raises (the outer except logs a warning), fall through to the
fresh-login path. -/
def login (parse : String → Except PyError σ) (dump : σ → String)
    (credentialsPresent : Bool) (o : ClientOracle σ) (file : Option String)
    (warm_up : Bool) : Except PyError Unit × Option String :=
  match _try_load_session parse o file with
  | .ok true =>
    let _ := if warm_up then _warm_up_session o else .ok ()
    (.ok (), file)
  | .ok false => freshLogin dump credentialsPresent o file warm_up
  | .error _ => freshLogin dump credentialsPresent o file warm_up

/-- SessionManager.logout: a single try block runs client.logout() and
then unlinks the session file when it exists; the except clause only
logs.  When the remote logout call raises, control jumps straight to the
except clause and the unlink is skipped, so the stored file survives.
Returns the session file content after the call. -/
def logout (o : ClientOracle σ) (file : Option String) : Option String :=
  match o.logoutCall with
  | .ok _ => none
  | .error _ => file

/- Human behavior engine (src/human_behavior.py). -/

/-- The wall-clock loop of HumanBehavior.warm_up_session.  The source
records start_time = time.time() and iterates while
time.time() - start_time < duration_seconds.  `t n` is the value returned
by the n-th call to time.time() (so `t 0` is start_time and `t (k + 1)`
is the reading at the k-th loop condition check), `k` counts completed
iterations and `fuel` bounds the number of condition checks modelled.
Returns the number of body iterations executed, or none when the fuel is
exhausted before the condition turns false. -/
def warmUpChecks (t : ℕ → ℚ) (duration : ℚ) : ℕ → ℕ → Option ℕ
  | 0, _ => none
  | fuel + 1, k =>
    if t (k + 1) - t 0 < duration then warmUpChecks t duration fuel (k + 1)
    else some k

/-- Helper of the Python str.split() model: `cur` holds the characters of
the word currently being read, in reverse.  Whitespace closes the current
word (if any); any other character extends it. -/
def pySplitAux (cur : List Char) : List Char → List (List Char)
  | [] => if cur.isEmpty then [] else [cur.reverse]
  | c :: cs =>
    if c.isWhitespace then
      if cur.isEmpty then pySplitAux [] cs
      else cur.reverse :: pySplitAux [] cs
    else pySplitAux (c :: cur) cs

/-- Model of Python str.split() with no arguments: splits on runs of
whitespace and never yields empty words. -/
def pySplit (cs : List Char) : List (List Char) := pySplitAux [] cs

/-- HumanBehavior.simulate_typing: words = len(text.split()); base time
is (words / 40) * 60 seconds (40 words per minute); the result is the
base time times the random factor drawn from [0.8, 1.3] plus the random
thinking pause drawn from [1, 3].  The function performs no remote call
and no sleep, which the empty event trace records. -/
def simulate_typing (text : List Char) (factor thinking : ℚ) : List Event × ℚ :=
  let words : ℕ := (pySplit text).length
  let base_time : ℚ := ((words : ℚ) / 40) * 60
  let typing_time : ℚ := base_time * factor
  let typing_time2 : ℚ := typing_time + thinking
  ([], typing_time2)

/-- Specification-side word count: the number of nonempty fragments when
the text is split at each whitespace character, that is the number of
whitespace-separated words. -/
def wordCountSpec (text : List Char) : ℕ :=
  ((text.splitOnP Char.isWhitespace).filter (fun w => !w.isEmpty)).length

/- Concrete fixtures used by the witness theorems below. -/

/-- An operation that raises a rate-limit error on every attempt. -/
def alwaysRateLimited : ℕ → Outcome Unit := fun _ => Outcome.raise PyError.rateLimitError

/-- An operation that raises ChallengeRequired on its first attempt. -/
def challengeFirst : ℕ → Outcome Unit := fun _ => Outcome.raise PyError.challengeRequired

/-- An operation that is rate limited on the first attempt and succeeds
on the retry. -/
def rateLimitedOnce : ℕ → Outcome Unit := fun i =>
  if i = 0 then Outcome.raise PyError.rateLimitError else Outcome.ok ()

/-- A concrete settings serializer over Bool settings values. -/
def boolDump : Bool → String
  | true => "true"
  | false => "false"

/-- A concrete settings parser over Bool settings values, the inverse of
boolDump on its range. -/
def boolParse (s : String) : Except PyError Bool :=
  if s = "true" then .ok true
  else if s = "false" then .ok false
  else .error .otherError

/-- An oracle whose every call succeeds, with Bool settings value true. -/
def happyOracle : ClientOracle Bool where
  set_settings := fun _ => .ok ()
  get_timeline_feed := .ok ()
  loginCall := .ok ()
  get_settings := .ok true
  writeOk := true
  warmUpRun := .ok ()
  logoutCall := .error .otherError

/-- An oracle whose remote logout call raises, with every other call
succeeding. -/
def failingLogoutOracle : ClientOracle String where
  set_settings := fun _ => .ok ()
  get_timeline_feed := .ok ()
  loginCall := .ok ()
  get_settings := .ok "settings"
  writeOk := true
  warmUpRun := .ok ()
  logoutCall := .error .otherError

/-- An oracle whose warm-up body raises, with authentication
succeeding. -/
def failingWarmUpOracle : ClientOracle Bool where
  set_settings := fun _ => .ok ()
  get_timeline_feed := .ok ()
  loginCall := .ok ()
  get_settings := .ok true
  writeOk := true
  warmUpRun := .error .otherError
  logoutCall := .ok ()

/-- An oracle whose get_settings call raises during session persistence,
with the login call succeeding. -/
def failingSaveOracle : ClientOracle Bool where
  set_settings := fun _ => .ok ()
  get_timeline_feed := .ok ()
  loginCall := .ok ()
  get_settings := .error .otherError
  writeOk := true
  warmUpRun := .ok ()
  logoutCall := .ok ()

/- Helper lemmas shared by the claim theorems. -/

theorem one_le_pyOrNat (x : Option ℕ) (d : ℕ) (hd : 1 ≤ d) : 1 ≤ pyOrNat x d := by
  match x with
  | none => simpa [pyOrNat] using hd
  | some 0 => simpa [pyOrNat] using hd
  | some (n + 1) => simp [pyOrNat]

theorem classify_eq_rateLimited {e : PyError} (h : classify e = FailureKind.RateLimited) :
    e = PyError.rateLimitError ∨ e = PyError.pleaseWaitFewMinutes := by
  cases e <;> simp_all [classify]

theorem invokeCount_nil : invokeCount [] = 0 := rfl

theorem invokeCount_cons_invoke (t : List Event) :
    invokeCount (Event.invoke :: t) = invokeCount t + 1 := by
  simp [invokeCount, List.countP_cons, Event.isInvoke]

theorem invokeCount_cons_backoff (d : ℚ) (t : List Event) :
    invokeCount (Event.backoffSleep d :: t) = invokeCount t := by
  simp [invokeCount, List.countP_cons, Event.isInvoke]

theorem invokeCount_cons_pacing (d : ℚ) (t : List Event) :
    invokeCount (Event.pacingSleep d :: t) = invokeCount t := by
  simp [invokeCount, List.countP_cons, Event.isInvoke]

theorem pacingCount_nil : pacingCount [] = 0 := rfl

theorem pacingCount_cons_invoke (t : List Event) :
    pacingCount (Event.invoke :: t) = pacingCount t := by
  simp [pacingCount, List.countP_cons, Event.isPacing]

theorem pacingCount_cons_backoff (d : ℚ) (t : List Event) :
    pacingCount (Event.backoffSleep d :: t) = pacingCount t := by
  simp [pacingCount, List.countP_cons, Event.isPacing]

theorem pacingCount_cons_pacing (d : ℚ) (t : List Event) :
    pacingCount (Event.pacingSleep d :: t) = pacingCount t + 1 := by
  simp [pacingCount, List.countP_cons, Event.isPacing]

theorem pacingCount_retryLoop (rd : ℚ) (retries : ℕ) (f : ℕ → Outcome α) :
    ∀ remaining attempt, pacingCount (retryLoop rd retries f attempt remaining).1 = 0 := by
  intro remaining
  induction remaining with
  | zero => intro attempt; simp [retryLoop, pacingCount]
  | succ r ih =>
    intro attempt
    cases hfa : f attempt with
    | ok a =>
      simp only [retryLoop, hfa]
      simp [pacingCount_cons_invoke, pacingCount_nil]
    | raise e =>
      by_cases h1 : e = PyError.rateLimitError ∨ e = PyError.pleaseWaitFewMinutes
      · by_cases h2 : attempt < retries - 1
        · simp only [retryLoop, hfa, if_pos h1, if_pos h2]
          simp [pacingCount_cons_invoke, pacingCount_cons_backoff, ih]
        · simp only [retryLoop, hfa, if_pos h1, if_neg h2]
          simp [pacingCount_cons_invoke, pacingCount_nil]
      · by_cases h3 : e = PyError.challengeRequired
        · simp only [retryLoop, hfa, if_neg h1, if_pos h3]
          simp [pacingCount_cons_invoke, pacingCount_nil]
        · by_cases h4 : e.isClientError = true
          · by_cases h2 : attempt < retries - 1
            · simp only [retryLoop, hfa, if_neg h1, if_neg h3, if_pos h4, if_pos h2]
              simp [pacingCount_cons_invoke, pacingCount_cons_backoff, ih]
            · simp only [retryLoop, hfa, if_neg h1, if_neg h3, if_pos h4, if_neg h2]
              simp [pacingCount_cons_invoke, pacingCount_nil]
          · simp only [retryLoop, hfa, if_neg h1, if_neg h3, if_neg h4]
            simp [pacingCount_cons_invoke, pacingCount_nil]

theorem map_backoff_shift (rd : ℚ) (a s : ℕ) :
    (List.range s).map (fun j => rd * 2 ^ (a + 1 + j))
      = ((List.range s).map Nat.succ).map (fun j => rd * 2 ^ (a + j)) := by
  rw [List.map_map]
  refine List.map_congr_left ?_
  intro j hj
  have hexp : a + 1 + j = a + Nat.succ j := by omega
  simp [Function.comp, hexp]

theorem retryLoop_rateLimited (rd : ℚ) (retries : ℕ) (f : ℕ → Outcome α)
    (hf : ∀ i, ∃ e, f i = Outcome.raise e ∧ classify e = FailureKind.RateLimited) :
    ∀ remaining attempt, attempt + remaining = retries →
      invokeCount (retryLoop rd retries f attempt remaining).1 = remaining ∧
      backoffs (retryLoop rd retries f attempt remaining).1
        = (List.range (remaining - 1)).map (fun j => rd * 2 ^ (attempt + j)) ∧
      (1 ≤ remaining →
        ∃ e, (retryLoop rd retries f attempt remaining).2 = RunResult.raised e ∧
          classify e = FailureKind.RateLimited) := by
  intro remaining
  induction remaining with
  | zero =>
    intro attempt h
    exact ⟨rfl, by simp [retryLoop, backoffs], by omega⟩
  | succ r ih =>
    intro attempt h
    obtain ⟨e, he, hce⟩ := hf attempt
    have hor : e = PyError.rateLimitError ∨ e = PyError.pleaseWaitFewMinutes :=
      classify_eq_rateLimited hce
    by_cases hr : 0 < r
    · have hlt : attempt < retries - 1 := by omega
      have hrec := ih (attempt + 1) (by omega)
      simp only [retryLoop, he, if_pos hor, if_pos hlt]
      refine ⟨?_, ?_, fun _ => hrec.2.2 (by omega)⟩
      · rw [invokeCount_cons_invoke, invokeCount_cons_backoff, hrec.1]
      · simp only [backoffs]
        rw [hrec.2.1]
        obtain ⟨s, rfl⟩ : ∃ s, r = s + 1 := ⟨r - 1, by omega⟩
        simp only [Nat.add_sub_cancel]
        rw [List.range_succ_eq_map, List.map_cons, map_backoff_shift]
        simp
    · have hr0 : r = 0 := by omega
      subst hr0
      have hnlt : ¬ attempt < retries - 1 := by omega
      simp only [retryLoop, he, if_pos hor, if_neg hnlt]
      refine ⟨?_, ?_, fun _ => ⟨e, rfl, hce⟩⟩
      · rw [invokeCount_cons_invoke, invokeCount_nil]
      · simp [backoffs]

/-- C1: when every attempt of an operation guarded by retry_on_error
raises a rate-limit classified failure, the operation is invoked exactly
MAX_RETRIES times (which equals min(k, MAX_RETRIES) for every attempt
budget k at least MAX_RETRIES); the i-th backoff sleep (0-indexed), the
one performed after failed attempt i and before the next attempt, lasts
RETRY_DELAY * 2 ^ i; and after the final attempt the failure is
propagated with classification RateLimited. -/
theorem retry_rate_limited_policy (max_retries : Option ℕ) (delay : Option ℚ)
    (f : ℕ → Outcome α)
    (hf : ∀ i, ∃ e, f i = Outcome.raise e ∧ classify e = FailureKind.RateLimited) :
    invokeCount (retry_on_error max_retries delay f).1
      = pyOrNat max_retries Config.MAX_RETRIES ∧
    (∀ k, pyOrNat max_retries Config.MAX_RETRIES ≤ k →
      invokeCount (retry_on_error max_retries delay f).1
        = min k (pyOrNat max_retries Config.MAX_RETRIES)) ∧
    backoffs (retry_on_error max_retries delay f).1
      = (List.range (pyOrNat max_retries Config.MAX_RETRIES - 1)).map
          (fun i => pyOrRat delay Config.RETRY_DELAY * 2 ^ i) ∧
    ∃ e, (retry_on_error max_retries delay f).2 = RunResult.raised e ∧
      classify e = FailureKind.RateLimited := by
  have h := retryLoop_rateLimited (pyOrRat delay Config.RETRY_DELAY)
    (pyOrNat max_retries Config.MAX_RETRIES) f hf
    (pyOrNat max_retries Config.MAX_RETRIES) 0 (by omega)
  have h1 : 1 ≤ pyOrNat max_retries Config.MAX_RETRIES :=
    one_le_pyOrNat _ _ (by norm_num [Config.MAX_RETRIES])
  simp only [retry_on_error]
  refine ⟨h.1, fun k hk => ?_, ?_, h.2.2 h1⟩
  · rw [h.1]
    omega
  · rw [h.2.1]
    simp

/-- Witness for C1: the default configuration (3 retries, base delay 5)
on an operation that raises RateLimitError on every attempt gives exactly
3 invocations, backoff sleeps of 5 and 10 seconds, and a propagated
RateLimitError. -/
theorem retry_rate_limited_policy_witness :
    invokeCount (retry_on_error none none alwaysRateLimited).1 = 3 ∧
    invokeCount (retry_on_error none none alwaysRateLimited).1 = min 7 3 ∧
    backoffs (retry_on_error none none alwaysRateLimited).1 = [5, 10] := by
  have h := retry_rate_limited_policy none none alwaysRateLimited
    (fun i => ⟨PyError.rateLimitError, rfl, rfl⟩)
  refine ⟨?_, ?_, ?_⟩
  · simpa [pyOrNat, Config.MAX_RETRIES] using h.1
  · simpa [pyOrNat, Config.MAX_RETRIES] using
      h.2.1 7 (by norm_num [pyOrNat, Config.MAX_RETRIES])
  · have h3 := h.2.2.1
    rw [h3]
    norm_num [pyOrNat, pyOrRat, Config.MAX_RETRIES, Config.RETRY_DELAY, List.range_succ]

/-- C5: an operation guarded by retry_on_error that raises a
challenge-classified failure is invoked exactly once: the trace is a
single invocation with no backoff sleep and the failure is propagated
immediately, with classification ChallengeRequired. -/
theorem challenge_never_retried (max_retries : Option ℕ) (delay : Option ℚ)
    (f : ℕ → Outcome α) (e : PyError)
    (hf : f 0 = Outcome.raise e) (hc : classify e = FailureKind.ChallengeRequired) :
    (retry_on_error max_retries delay f).1 = [Event.invoke] ∧
    invokeCount (retry_on_error max_retries delay f).1 = 1 ∧
    backoffs (retry_on_error max_retries delay f).1 = [] ∧
    (retry_on_error max_retries delay f).2 = RunResult.raised e := by
  have hch : e = PyError.challengeRequired := by cases e <;> simp_all [classify]
  subst hch
  have h1 : 1 ≤ pyOrNat max_retries Config.MAX_RETRIES :=
    one_le_pyOrNat _ _ (by norm_num [Config.MAX_RETRIES])
  obtain ⟨r, hr⟩ : ∃ r, pyOrNat max_retries Config.MAX_RETRIES = r + 1 :=
    ⟨_, (Nat.succ_pred_eq_of_pos h1).symm⟩
  have hEq : retry_on_error max_retries delay f
      = ([Event.invoke], RunResult.raised PyError.challengeRequired) := by
    unfold retry_on_error
    rw [hr]
    simp [retryLoop, hf]
  rw [hEq]
  exact ⟨rfl, rfl, rfl, rfl⟩

/-- Witness for C5: an operation that raises ChallengeRequired on its
first attempt is invoked once and the failure propagates at once. -/
theorem challenge_never_retried_witness :
    (retry_on_error none none challengeFirst).1 = [Event.invoke] ∧
    invokeCount (retry_on_error none none challengeFirst).1 = 1 ∧
    backoffs (retry_on_error none none challengeFirst).1 = [] ∧
    (retry_on_error none none challengeFirst).2
      = RunResult.raised PyError.challengeRequired :=
  challenge_never_retried none none challengeFirst PyError.challengeRequired rfl rfl

/-- C2 counterexample: the claim that a pacing sleep happens before every
attempt, retries included, is false for the source decorator stack: with
rate_limit outside retry_on_error, a call whose first attempt is rate
limited and whose retry succeeds makes 2 attempts but the trace contains
a single pacing sleep, so at least one attempt is not preceded by its own
pacing sleep. -/
theorem pacing_before_every_attempt_counterexample :
    invokeCount (guardedCall 2 rateLimitedOnce).1 = 2 ∧
    pacingCount (guardedCall 2 rateLimitedOnce).1 = 1 ∧
    ¬ invokeCount (guardedCall 2 rateLimitedOnce).1
        ≤ pacingCount (guardedCall 2 rateLimitedOnce).1 := by
  refine ⟨?_, ?_, ?_⟩ <;> decide

/-- C2 amended: the pacing sleep drawn uniformly from
[MIN_DELAY, MAX_DELAY] occurs exactly once per guarded call, before the
first attempt; the retry attempts inside the call are not preceded by
further pacing sleeps, and the wrapper does not change the result. -/
theorem rate_limit_paces_once_per_call (d : ℚ) (f : ℕ → Outcome α)
    (hd : Config.MIN_DELAY ≤ d ∧ d ≤ Config.MAX_DELAY) :
    (guardedCall d f).1 = Event.pacingSleep d :: (retry_on_error none none f).1 ∧
    pacingCount (retry_on_error none none f).1 = 0 ∧
    pacingCount (guardedCall d f).1 = 1 ∧
    (guardedCall d f).2 = (retry_on_error none none f).2 := by
  have h0 : pacingCount (retry_on_error none none f).1 = 0 :=
    pacingCount_retryLoop _ _ f _ 0
  refine ⟨rfl, h0, ?_, rfl⟩
  show pacingCount (Event.pacingSleep d :: (retry_on_error none none f).1) = 1
  rw [pacingCount_cons_pacing, h0]

/-- Witness for C2 (amended): a concrete guarded call with pacing delay 2
and a single rate-limited attempt before success. -/
theorem rate_limit_paces_once_per_call_witness :
    (guardedCall 2 rateLimitedOnce).1
      = Event.pacingSleep 2 :: (retry_on_error none none rateLimitedOnce).1 ∧
    pacingCount (retry_on_error none none rateLimitedOnce).1 = 0 ∧
    pacingCount (guardedCall 2 rateLimitedOnce).1 = 1 ∧
    (guardedCall 2 rateLimitedOnce).2 = (retry_on_error none none rateLimitedOnce).2 :=
  rate_limit_paces_once_per_call 2 rateLimitedOnce
    ⟨by norm_num [Config.MIN_DELAY], by norm_num [Config.MAX_DELAY]⟩

/- Session manager claims. -/

theorem tryLoad_never_raises (parse : String → Except PyError σ) (o : ClientOracle σ)
    (file : Option String) : ∃ b, _try_load_session parse o file = Except.ok b := by
  cases file with
  | none => exact ⟨false, rfl⟩
  | some raw =>
    simp only [_try_load_session]
    split
    · exact ⟨false, rfl⟩
    · split
      · exact ⟨false, rfl⟩
      · split
        · exact ⟨true, rfl⟩
        · exact ⟨false, rfl⟩
        · exact ⟨false, rfl⟩

theorem freshLogin_result_file_irrelevant (dump : σ → String) (creds : Bool)
    (o : ClientOracle σ) (file file2 : Option String) (wu : Bool) :
    (freshLogin dump creds o file wu).1 = (freshLogin dump creds o file2 wu).1 := by
  cases creds with
  | false => rfl
  | true =>
    simp only [freshLogin, if_pos]
    cases o.loginCall with
    | ok u => rfl
    | error e => rfl

/-- C3 (code bug witness): when the remote logout call raises, the
except clause of SessionManager.logout is entered before the unlink runs,
so the locally stored session state survives the logout and a subsequent
load does not yield not-found.  At the concrete failing input (a stored
session file and a raising client.logout) the file is unchanged, which
contradicts the specified guarantee that local deletion is never blocked
by a remote invalidation failure. -/
theorem logout_remote_failure_keeps_state :
    logout failingLogoutOracle (some "state") = some "state" ∧
    logout failingLogoutOracle (some "state") ≠ none ∧
    _load_session_file boolParse (logout failingLogoutOracle (some "state"))
      ≠ Except.error PyError.fileNotFoundError := by
  refine ⟨rfl, by simp [logout, failingLogoutOracle], ?_⟩
  intro hcon
  simp [logout, failingLogoutOracle, _load_session_file, boolParse] at hcon

/-- C4: a stored session state that exists but fails to parse makes
login behave like the no-stored-state case: _try_load_session returns
False without letting the parse exception escape, exactly as for a
missing file, the fresh-authentication path is taken in both cases, and
the observable login outcome is identical in both cases. -/
theorem corrupt_state_like_missing (parse : String → Except PyError σ) (dump : σ → String)
    (creds : Bool) (o : ClientOracle σ) (raw : String) (e : PyError) (wu : Bool)
    (hp : parse raw = Except.error e) :
    _try_load_session parse o (some raw) = Except.ok false ∧
    _try_load_session parse o none = Except.ok false ∧
    login parse dump creds o (some raw) wu = freshLogin dump creds o (some raw) wu ∧
    login parse dump creds o none wu = freshLogin dump creds o none wu ∧
    (login parse dump creds o (some raw) wu).1 = (login parse dump creds o none wu).1 := by
  have h1 : _try_load_session parse o (some raw) = Except.ok false := by
    simp only [_try_load_session, hp]
  refine ⟨h1, rfl, ?_, rfl, ?_⟩
  · simp only [login, h1]
  · simp only [login, h1]
    exact freshLogin_result_file_irrelevant dump creds o (some raw) none wu

/-- Witness for C4: a concrete corrupt stored state (content that
boolParse rejects) with an otherwise healthy oracle. -/
theorem corrupt_state_like_missing_witness :
    _try_load_session boolParse happyOracle (some "garbage") = Except.ok false ∧
    _try_load_session boolParse happyOracle none = Except.ok false ∧
    login boolParse boolDump true happyOracle (some "garbage") true
      = freshLogin boolDump true happyOracle (some "garbage") true ∧
    login boolParse boolDump true happyOracle none true
      = freshLogin boolDump true happyOracle none true ∧
    (login boolParse boolDump true happyOracle (some "garbage") true).1
      = (login boolParse boolDump true happyOracle none true).1 :=
  corrupt_state_like_missing boolParse boolDump true happyOracle "garbage"
    PyError.otherError true (by simp [boolParse])

/-- C6: a save that completes, followed immediately by a load with no
intervening delete, returns exactly the settings value that was saved,
given that the parser inverts the serializer (the json round-trip
contract). -/
theorem save_load_roundtrip (parse : String → Except PyError σ) (dump : σ → String)
    (o : ClientOracle σ) (file : Option String) (s : σ)
    (hrt : ∀ x, parse (dump x) = Except.ok x)
    (hget : o.get_settings = Except.ok s) (hw : o.writeOk = true) :
    _load_session_file parse (_save_session dump o file) = Except.ok s := by
  simp only [_save_session, hget, hw, if_pos, _load_session_file]
  exact hrt s

/-- Witness for C6: Bool settings with the concrete serializer boolDump
and parser boolParse, saved through an oracle whose get_settings returns
true. -/
theorem save_load_roundtrip_witness :
    _load_session_file boolParse (_save_session boolDump happyOracle none)
      = Except.ok true :=
  save_load_roundtrip boolParse boolDump happyOracle none true
    (by intro x; cases x <;> rfl) rfl rfl

/-- C7: an exception raised inside the warm-up invocation never escapes
_warm_up_session, and login still returns the authenticated client
whether authentication came from the restored session or from the fresh
login path. -/
theorem warm_up_failure_never_fails_login (parse : String → Except PyError σ)
    (dump : σ → String) (creds : Bool) (o : ClientOracle σ) (file : Option String)
    (e : PyError) (hw : o.warmUpRun = Except.error e)
    (hauth : _try_load_session parse o file = Except.ok true ∨
      (creds = true ∧ o.loginCall = Except.ok ())) :
    _warm_up_session o = Except.ok () ∧
    (login parse dump creds o file true).1 = Except.ok () := by
  constructor
  · simp [_warm_up_session, hw]
  · rcases hauth with hload | ⟨hc, hl⟩
    · simp only [login, hload]
    · subst hc
      obtain ⟨b, hb⟩ := tryLoad_never_raises parse o file
      cases b with
      | true => simp only [login, hb]
      | false => simp only [login, hb, freshLogin, if_pos, hl]

/-- Witness for C7: a concrete oracle whose warm-up body raises while
the fresh login succeeds. -/
theorem warm_up_failure_never_fails_login_witness :
    _warm_up_session failingWarmUpOracle = Except.ok () ∧
    (login boolParse boolDump true failingWarmUpOracle none true).1 = Except.ok () :=
  warm_up_failure_never_fails_login boolParse boolDump true failingWarmUpOracle none
    PyError.otherError rfl (Or.inr ⟨rfl, rfl⟩)

/-- C10: when the saved-session path is not taken, the remote login call
succeeds and persisting the session raises (either get_settings or the
file write fails), the exception is swallowed inside _save_session:
login returns the authenticated client and the stored file is simply
left as it was. -/
theorem save_failure_never_fails_login (parse : String → Except PyError σ)
    (dump : σ → String) (o : ClientOracle σ) (file : Option String) (wu : Bool)
    (hnl : _try_load_session parse o file = Except.ok false)
    (hl : o.loginCall = Except.ok ())
    (hs : (∃ e, o.get_settings = Except.error e) ∨ o.writeOk = false) :
    login parse dump true o file wu = (Except.ok (), file) := by
  simp only [login, hnl, freshLogin, if_pos, hl]
  rcases hs with ⟨e, he⟩ | hwf
  · simp [_save_session, he]
  · cases hget : o.get_settings with
    | error e2 => simp [_save_session, hget]
    | ok s => simp [_save_session, hget, hwf]

/-- Witness for C10: a concrete oracle with no stored session, a
successful remote login and a get_settings call that raises during
persistence. -/
theorem save_failure_never_fails_login_witness :
    login boolParse boolDump true failingSaveOracle none true = (Except.ok (), none) :=
  save_failure_never_fails_login boolParse boolDump failingSaveOracle none true rfl rfl
    (Or.inl ⟨PyError.otherError, rfl⟩)

/- Human behavior engine claims. -/

/-- C8: with a zero duration budget and a clock that never runs
backwards, the warm-up loop condition is already false at its first
check, so the loop terminates after zero body iterations, which is at
most one loop iteration worth of actions. -/
theorem warm_up_zero_budget (t : ℕ → ℚ) (fuel : ℕ)
    (hmono : ∀ n, t 0 ≤ t n) (hfuel : 1 ≤ fuel) :
    warmUpChecks t 0 fuel 0 = some 0 := by
  obtain ⟨g, rfl⟩ : ∃ g, fuel = g + 1 := ⟨fuel - 1, by omega⟩
  have hnot : ¬ t 1 - t 0 < 0 := by
    have := hmono 1
    linarith
  simp [warmUpChecks, hnot]

/-- Witness for C8: a constant clock with one unit of fuel. -/
theorem warm_up_zero_budget_witness :
    warmUpChecks (fun _ => 0) 0 1 0 = some 0 :=
  warm_up_zero_budget (fun _ => 0) 1 (fun n => le_refl 0) (le_refl 1)

theorem pySplitAux_length (cs : List Char) :
    (pySplitAux [] cs).length
      = ((cs.splitOnP Char.isWhitespace).filter (fun w => !w.isEmpty)).length ∧
    ∀ cur : List Char, ¬ cur.isEmpty = true →
      (pySplitAux cur cs).length
        = 1 + (((cs.splitOnP Char.isWhitespace).tail).filter (fun w => !w.isEmpty)).length := by
  induction cs with
  | nil =>
    constructor
    · simp [pySplitAux]
    · intro cur hcur
      simp [pySplitAux, hcur]
  | cons c cs ih =>
    rcases hsp : cs.splitOnP Char.isWhitespace with _ | ⟨h, tl⟩
    · exact absurd hsp (List.splitOnP_ne_nil _ cs)
    · by_cases hw : c.isWhitespace
      · constructor
        · rw [show pySplitAux [] (c :: cs) = pySplitAux [] cs by simp [pySplitAux, hw]]
          rw [ih.1, List.splitOnP_cons, if_pos hw]
          simp
        · intro cur hcur
          rw [show pySplitAux cur (c :: cs) = cur.reverse :: pySplitAux [] cs by
            simp [pySplitAux, hw, hcur]]
          rw [List.splitOnP_cons, if_pos hw]
          simp [ih.1]
          omega
      · have hone : ∀ cur : List Char, ¬ cur.isEmpty = true →
            (pySplitAux cur (c :: cs)).length = 1 + (tl.filter (fun w => !w.isEmpty)).length := by
          intro cur hcur
          rw [show pySplitAux cur (c :: cs) = pySplitAux (c :: cur) cs by
            simp [pySplitAux, hw]]
          rw [ih.2 (c :: cur) (by simp), hsp]
          simp
        constructor
        · rw [show pySplitAux [] (c :: cs) = pySplitAux [c] cs by simp [pySplitAux, hw]]
          rw [ih.2 [c] (by simp), hsp, List.splitOnP_cons, if_neg hw, hsp]
          simp
          omega
        · intro cur hcur
          rw [hone cur hcur, List.splitOnP_cons, if_neg hw, hsp]
          simp

theorem pySplit_length (cs : List Char) : (pySplit cs).length = wordCountSpec cs :=
  (pySplitAux_length cs).1

/-- C9: simulate_typing performs no sleep and no remote call (its event
trace is empty) and returns exactly (wordCount / 40) * 60 seconds scaled
by the random factor drawn from [0.8, 1.3] plus the random thinking
addend drawn from [1, 3], where wordCount is the number of
whitespace-separated words of the text. -/
theorem simulate_typing_formula (text : List Char) (factor thinking : ℚ)
    (hfac : 4 / 5 ≤ factor ∧ factor ≤ 13 / 10)
    (hth : 1 ≤ thinking ∧ thinking ≤ 3) :
    (simulate_typing text factor thinking).1 = [] ∧
    (simulate_typing text factor thinking).2
      = ((wordCountSpec text : ℚ) / 40) * 60 * factor + thinking := by
  refine ⟨rfl, ?_⟩
  simp only [simulate_typing, pySplit_length]

/-- Witness for C9: a concrete two-word text with factor 1 and thinking
pause 2. -/
theorem simulate_typing_formula_witness :
    (simulate_typing ("hello world".toList) 1 2).1 = [] ∧
    (simulate_typing ("hello world".toList) 1 2).2
      = ((wordCountSpec ("hello world".toList) : ℚ) / 40) * 60 * 1 + 2 :=
  simulate_typing_formula ("hello world".toList) 1 2
    ⟨by norm_num, by norm_num⟩ ⟨by norm_num, by norm_num⟩

end InstagramScraper
